import Mathlib

/-!
Verification of the bedrock-gateway-client repository: a shallow embedding of
its configuration resolution (`config.py`), endpoint derivation, settings
merge (`client.py`, `BedrockClient.__init__`), chat-payload construction
(`BedrockClient.chat`) and response normalization
(`BedrockClient._send_request`), with theorems settling the specification's
claims about them.

Python's dynamic JSON values are embedded as the inductive `Json`; exact
rationals stand in for Python's finite int/float JSON numbers, with
dedicated constructors for the non-finite floats the decoder's `NaN`,
`Infinity` and `-Infinity` constants produce.  `json_loads` is an executable
model of the standard library's `json.loads` with its default options (the
three non-finite constants accepted, surrogate-pair escapes combined, last
duplicate object key winning as with Python dicts).  Fallible Python code is
embedded in `Except`, with distinct error constructors for the distinct
Python exception classes the code can raise.
-/

namespace BedrockGateway

/-- A JSON value as produced by Python's `json.loads`: null, booleans, finite
numbers (modelled exactly as rationals), the non-finite floats produced by
the decoder's `NaN` and `Infinity`/`-Infinity` constants, strings, arrays
and objects.  Objects carry their key/value pairs in insertion order, as
Python dicts do. -/
inductive Json where
  | null
  | bool (b : Bool)
  | num (q : Rat)
  | nan
  | inf (neg : Bool)
  | str (s : String)
  | arr (items : List Json)
  | obj (fields : List (String × Json))
deriving Repr

/-- First-match key lookup in an object's field list.  Parsed objects have
unique keys (see `upsertField`), so this is Python's `dict` lookup. -/
def jsonLookup (fields : List (String × Json)) (k : String) : Option Json :=
  (fields.find? (fun p => p.1 == k)).map (fun p => p.2)

/-- Insert or overwrite a key, keeping the original position of an existing
key, exactly as `d[k] = v` behaves on a Python dict. -/
def upsertField (fields : List (String × Json)) (k : String) (v : Json) :
    List (String × Json) :=
  match fields with
  | [] => [(k, v)]
  | (k0, v0) :: rest =>
      if k0 = k then (k0, v) :: rest else (k0, v0) :: upsertField rest k v

/-- JSON insignificant whitespace (RFC 8259 / Python `json`): space, tab,
line feed, carriage return. -/
def jsonWs (c : Char) : Bool :=
  c.toNat == 32 || c.toNat == 9 || c.toNat == 10 || c.toNat == 13

/-- Drop leading JSON whitespace. -/
def dropWs : List Char → List Char
  | [] => []
  | c :: cs => if jsonWs c then dropWs cs else c :: cs

/-- Decimal digit test on characters (code points 48-57). -/
def isDig (c : Char) : Bool := 47 < c.toNat && c.toNat < 58

/-- Split off a maximal run of decimal digits. -/
def grabDigits : List Char → List Char × List Char
  | [] => ([], [])
  | c :: cs =>
      if isDig c then
        let p := grabDigits cs
        (c :: p.1, p.2)
      else ([], c :: cs)

/-- Natural value of a digit run. -/
def digitsVal (ds : List Char) : Nat :=
  ds.foldl (fun acc c => acc * 10 + (c.toNat - '0'.toNat)) 0

/-- Value of one hexadecimal digit, if it is one (code points 0-9, a-f,
A-F). -/
def hexDigitVal (c : Char) : Option Nat :=
  let n := c.toNat
  if 48 ≤ n ∧ n ≤ 57 then some (n - 48)
  else if 97 ≤ n ∧ n ≤ 102 then some (n - 87)
  else if 65 ≤ n ∧ n ≤ 70 then some (n - 55)
  else none

/-- Translation of a single-character JSON string escape: the quote, slash
and backslash stand for themselves, the letters b, f, n, r, t for their
control characters. -/
def escSimple (c : Char) : Option Char :=
  if c = '"' ∨ c = '/' ∨ c = '\\' then some c
  else if c = 'n' then some (Char.ofNat 10)
  else if c = 't' then some (Char.ofNat 9)
  else if c = 'r' then some (Char.ofNat 13)
  else if c = 'b' then some (Char.ofNat 8)
  else if c = 'f' then some (Char.ofNat 12)
  else none

/-- Body of a JSON string after its opening quote: characters and escapes up
to the closing quote.  Raw control characters are rejected, as by Python's
strict decoder.  A high-surrogate escape followed by a low-surrogate escape
is combined into the encoded code point, exactly as the decoder does; a
high surrogate followed by a `backslash-u` sequence with bad hex fails like
the decoder, and any other following text leaves the surrogate lone (Python
keeps the lone surrogate in the str; Lean characters cannot hold one, so
`Char.ofNat` maps it to NUL — the single representational divergence, which
no claim exercises). -/
def scanString (fuel : Nat) (acc : List Char) (cs : List Char) :
    Option (String × List Char) :=
  match fuel with
  | 0 => none
  | fuel + 1 =>
      match cs with
      | [] => none
      | '"' :: more => some (String.mk acc.reverse, more)
      | '\\' :: 'u' :: h1 :: h2 :: h3 :: h4 :: more =>
          match hexDigitVal h1, hexDigitVal h2, hexDigitVal h3, hexDigitVal h4 with
          | some x1, some x2, some x3, some x4 =>
              let n := 4096 * x1 + 256 * x2 + 16 * x3 + x4
              if 55296 ≤ n ∧ n ≤ 56319 then
                match more with
                | '\\' :: 'u' :: g1 :: g2 :: g3 :: g4 :: more2 =>
                    match hexDigitVal g1, hexDigitVal g2, hexDigitVal g3, hexDigitVal g4 with
                    | some y1, some y2, some y3, some y4 =>
                        let m := 4096 * y1 + 256 * y2 + 16 * y3 + y4
                        if 56320 ≤ m ∧ m ≤ 57343 then
                          scanString fuel
                            (Char.ofNat (65536 + 1024 * (n - 55296) + (m - 56320)) :: acc)
                            more2
                        else scanString fuel (Char.ofNat n :: acc) more
                    | _, _, _, _ => none
                | '\\' :: 'u' :: _ => none
                | _ => scanString fuel (Char.ofNat n :: acc) more
              else scanString fuel (Char.ofNat n :: acc) more
          | _, _, _, _ => none
      | '\\' :: e :: more =>
          match escSimple e with
          | some ch => scanString fuel (ch :: acc) more
          | none => none
      | c :: more => if c.toNat < 32 then none else scanString fuel (c :: acc) more

/-- A JSON number, by the strict grammar Python's decoder uses:
`-?(0|[1-9][0-9]*)(\.[0-9]+)?([eE][+-]?[0-9]+)?`, evaluated exactly as a
rational.  Pieces that do not complete (a dot with no digit, a bare
exponent marker) are left unconsumed, as the decoder's regex leaves them. -/
def scanNumber (cs : List Char) : Option (Rat × List Char) :=
  let sign : Int × List Char := match cs with
    | '-' :: r => (-1, r)
    | _ => (1, cs)
  match sign.2 with
  | [] => none
  | c :: r =>
      if ¬ isDig c then none
      else
        let intPart : List Char × List Char :=
          if c = '0' then (['0'], r)
          else
            let p := grabDigits r
            (c :: p.1, p.2)
        let frac : List Char × List Char :=
          match intPart.2 with
          | '.' :: d :: r2 =>
              if isDig d then
                let p := grabDigits r2
                (d :: p.1, p.2)
              else ([], intPart.2)
          | _ => ([], intPart.2)
        let expo : Int × List Char :=
          match frac.2 with
          | e :: r2 =>
              if e = 'e' ∨ e = 'E' then
                match r2 with
                | '+' :: d :: r3 =>
                    if isDig d then
                      let p := grabDigits r3
                      ((digitsVal (d :: p.1) : Int), p.2)
                    else (0, frac.2)
                | '-' :: d :: r3 =>
                    if isDig d then
                      let p := grabDigits r3
                      (-(digitsVal (d :: p.1) : Int), p.2)
                    else (0, frac.2)
                | d :: r3 =>
                    if isDig d then
                      let p := grabDigits r3
                      ((digitsVal (d :: p.1) : Int), p.2)
                    else (0, frac.2)
                | [] => (0, frac.2)
              else (0, frac.2)
          | [] => (0, frac.2)
        let mantissa : Int := sign.1 * (digitsVal (intPart.1 ++ frac.1) : Int)
        let scale : Int := expo.1 - (frac.1.length : Int)
        some ((mantissa : Rat) * (10 : Rat) ^ scale, expo.2)

mutual

/-- One JSON value, consuming leading whitespace; `fuel` makes the recursion
structural and is seeded larger than the input length. -/
def scanValue (fuel : Nat) (cs : List Char) : Option (Json × List Char) :=
  match fuel with
  | 0 => none
  | fuel + 1 =>
      match dropWs cs with
      | 'n' :: 'u' :: 'l' :: 'l' :: r => some (.null, r)
      | 't' :: 'r' :: 'u' :: 'e' :: r => some (.bool true, r)
      | 'f' :: 'a' :: 'l' :: 's' :: 'e' :: r => some (.bool false, r)
      | 'N' :: 'a' :: 'N' :: r => some (.nan, r)
      | 'I' :: 'n' :: 'f' :: 'i' :: 'n' :: 'i' :: 't' :: 'y' :: r => some (.inf false, r)
      | '-' :: 'I' :: 'n' :: 'f' :: 'i' :: 'n' :: 'i' :: 't' :: 'y' :: r =>
          some (.inf true, r)
      | '"' :: r =>
          match scanString (r.length + 1) [] r with
          | some (s, r2) => some (.str s, r2)
          | none => none
      | '[' :: r =>
          match dropWs r with
          | ']' :: r2 => some (.arr [], r2)
          | r2 =>
              match scanItems fuel r2 with
              | some (items, r3) => some (.arr items, r3)
              | none => none
      | '{' :: r =>
          match dropWs r with
          | '}' :: r2 => some (.obj [], r2)
          | r2 =>
              match scanFields fuel r2 with
              | some (pairs, r3) =>
                  some (.obj (pairs.foldl (fun acc p => upsertField acc p.1 p.2) []), r3)
              | none => none
      | r =>
          match scanNumber r with
          | some (q, r2) => some (.num q, r2)
          | none => none

/-- One-or-more comma-separated array items, through the closing bracket. -/
def scanItems (fuel : Nat) (cs : List Char) : Option (List Json × List Char) :=
  match fuel with
  | 0 => none
  | fuel + 1 =>
      match scanValue fuel cs with
      | none => none
      | some (v, r) =>
          match dropWs r with
          | ',' :: r2 =>
              match scanItems fuel r2 with
              | some (vs, r3) => some (v :: vs, r3)
              | none => none
          | ']' :: r2 => some ([v], r2)
          | _ => none

/-- One-or-more comma-separated object members, through the closing brace. -/
def scanFields (fuel : Nat) (cs : List Char) :
    Option (List (String × Json) × List Char) :=
  match fuel with
  | 0 => none
  | fuel + 1 =>
      match dropWs cs with
      | '"' :: r =>
          match scanString (r.length + 1) [] r with
          | none => none
          | some (k, r1) =>
              match dropWs r1 with
              | ':' :: r2 =>
                  match scanValue fuel r2 with
                  | none => none
                  | some (v, r3) =>
                      match dropWs r3 with
                      | ',' :: r4 =>
                          match scanFields fuel r4 with
                          | some (ps, r5) => some ((k, v) :: ps, r5)
                          | none => none
                      | '}' :: r4 => some ([(k, v)], r4)
                      | _ => none
              | _ => none
      | _ => none

end

/-- Model of Python's `json.loads` with its default options (so the
non-finite constants `NaN`, `Infinity` and `-Infinity` are accepted): the
whole input must be one JSON value surrounded only by whitespace; `none`
embeds `json.JSONDecodeError`. -/
def json_loads (s : String) : Option Json :=
  match scanValue (s.length + 1) s.data with
  | some (v, rest) => if dropWs rest = [] then some v else none
  | none => none

/-- Truthiness of an optional Python string: `None` and `""` are falsy. -/
def pyTruthy : Option String → Bool
  | none => false
  | some s => s != ""

/-- Default `model_map` of the `Config` dataclass (config.py lines 20-25). -/
def defaultModelMap : List (String × String) :=
  [("sonnet-4.5", "anthropic.claude-sonnet-4-5-v1:0"),
   ("sonnet", "anthropic.claude-sonnet-4-5-v1:0"),
   ("haiku-4.5", "anthropic.claude-haiku-4-5-v1:0"),
   ("haiku", "anthropic.claude-haiku-4-5-v1:0")]

/-- The `Config` dataclass (config.py lines 10-26) with its field defaults. -/
structure Config where
  gateway_url : Option String := none
  api_id : Option String := none
  region : String := "us-east-1"
  stage : String := "prod"
  path : String := "/invoke"
  aws_profile : Option String := none
  model_map : List (String × String) := defaultModelMap
  verbose : Bool := false
deriving Repr, DecidableEq

/-- Valid characters after the first one of a URL scheme
(`urllib.parse.scheme_chars`). -/
def schemeChar (c : Char) : Bool :=
  c.isAlpha || c.isDigit || c == '+' || c == '-' || c == '.'

/-- Remove a leading `scheme:` if the prefix is a well-formed scheme, as
`urllib.parse.urlsplit` does (first char alphabetic, the rest scheme chars,
a colon present at a positive index). -/
def removeScheme (cs : List Char) : List Char :=
  match cs.findIdx? (fun c => c == ':') with
  | some i =>
      if decide (0 < i) && (match cs with | c :: _ => c.isAlpha | [] => false)
          && (cs.take i).all schemeChar then
        cs.drop (i + 1)
      else cs
  | none => cs

/-- The netloc substring `urllib.parse.urlsplit` extracts, before its
validation: strip unsafe bytes and surrounding C0-control/space characters,
strip a scheme, and if the rest starts with `//` take the authority up to
the next `/`, `?` or `#` (else the netloc is empty). -/
def urlparseNetloc (u : String) : String :=
  let cs := u.data.filter (fun c => c.toNat != 9 && c.toNat != 13 && c.toNat != 10)
  let cs := cs.dropWhile (fun c => c.toNat ≤ 32)
  let cs := (cs.reverse.dropWhile (fun c => c.toNat ≤ 32)).reverse
  match removeScheme cs with
  | '/' :: '/' :: r =>
      String.mk (r.takeWhile (fun c => !(c == '/' || c == '?' || c == '#')))
  | _ => ""

/-- Errors that endpoint resolution can raise: the guidance-carrying
`ValueError` of `Config.get_full_url` (the spec's `ConfigurationError`), a
`ValueError` raised by `urlsplit` validation, or the `TypeError` `urlparse`
raises on `None`.  `BedrockClient.__init__` catches every `ValueError` from
resolution and re-raises it with the configuration guidance appended. -/
inductive ConfigError where
  | configurationError (msg : String)
  | valueError (msg : String)
  | typeError (msg : String)
deriving Repr, DecidableEq

/-- The bracket test `urlsplit` applies to the netloc: a `[` without `]` or
a `]` without `[` raises `ValueError("Invalid IPv6 URL")`. -/
def bracketMismatch (ns : String) : Bool :=
  (ns.data.contains '[' && !ns.data.contains ']')
  || (ns.data.contains ']' && !ns.data.contains '[')

/-- Model of the call `urllib.parse.urlparse(u).netloc` as `get_host` makes
it: the netloc substring, or `urlsplit`'s `ValueError` when its brackets are
mismatched.  Two further `urlsplit` validations are outside the model: the
NFKC check, which can only fire for non-ASCII netlocs, and the bracketed-host
IPv6/IPvFuture validation CPython 3.11+ performs when both brackets are
present; theorems about the success path therefore restrict themselves to
bracket-free ASCII netlocs, where every CPython version agrees with this
definition. -/
def urlparseNetlocE (u : String) : Except ConfigError String :=
  let ns := urlparseNetloc u
  if bracketMismatch ns then .error (.valueError "Invalid IPv6 URL") else .ok ns

/-- A netloc on which the modelled and unmodelled `urlsplit` validations all
pass trivially: pure ASCII with no square bracket. -/
def plainNetloc (ns : String) : Bool :=
  ns.data.all (fun c => c.toNat < 128 && c.toNat != 91 && c.toNat != 93)

/-- The message of the `ValueError` raised by `Config.get_full_url`. -/
def configurationGuidance : String :=
  "Either gateway_url or api_id must be configured.\nSet via environment variable BEDROCK_GATEWAY_URL or BEDROCK_GATEWAY_API_ID"

/-- `Config.get_full_url` (config.py lines 78-89): the explicit gateway URL
if truthy, else the URL derived from `api_id`, `region`, `stage` and `path`,
else the guidance `ValueError`. -/
def Config.get_full_url (c : Config) : Except ConfigError String :=
  if pyTruthy c.gateway_url then .ok (c.gateway_url.getD "")
  else if ¬ pyTruthy c.api_id then .error (.configurationError configurationGuidance)
  else .ok ("https://" ++ c.api_id.getD "" ++ ".execute-api." ++ c.region
      ++ ".amazonaws.com/" ++ c.stage ++ c.path)

/-- `Config.get_host` (config.py lines 91-98): the `api_id`-derived host if
`api_id` is truthy, else the netloc parsed out of `gateway_url` (with
`urlsplit`'s validation error when it raises). -/
def Config.get_host (c : Config) : Except ConfigError String :=
  if pyTruthy c.api_id then
    .ok (c.api_id.getD "" ++ ".execute-api." ++ c.region ++ ".amazonaws.com")
  else
    match c.gateway_url with
    | some u => urlparseNetlocE u
    | none => .error (.typeError "urlparse expects a string")

/-- The pair the spec calls `ResolvedEndpoint`: the full request URL and the
host used for signing. -/
structure ResolvedEndpoint where
  url : String
  host : String
deriving Repr, DecidableEq

/-- Endpoint resolution as performed by `BedrockClient.__init__` (client.py
lines 77-87): `get_full_url` then `get_host`, the first failure propagating. -/
def resolveEndpoint (c : Config) : Except ConfigError ResolvedEndpoint := do
  let url ← c.get_full_url
  let host ← c.get_host
  pure { url := url, host := host }

/-- The process environment as read by `Config.from_env`: each variable is
`some` value exactly when it is set (`os.getenv` otherwise returning the
stated default or `None`). -/
structure EnvVars where
  gateway_url : Option String := none
  api_id : Option String := none
  region : Option String := none
  stage : Option String := none
  path : Option String := none
  aws_profile : Option String := none
  verbose : Option String := none
deriving Repr, DecidableEq

/-- `Config.from_env` (config.py lines 28-39). -/
def Config.from_env (e : EnvVars) : Config :=
  { gateway_url := e.gateway_url
    api_id := e.api_id
    region := e.region.getD "us-east-1"
    stage := e.stage.getD "prod"
    path := e.path.getD "/invoke"
    aws_profile := e.aws_profile
    model_map := defaultModelMap
    verbose := (e.verbose.getD "").toLower == "true" }

/-- The persisted YAML settings: per field, `some v` when the file supplies
the key with a value of the dataclass's type, `none` when it is absent (a
key explicitly set to `null` for an `Optional` field is the same as absent). -/
structure FileData where
  gateway_url : Option String := none
  api_id : Option String := none
  region : Option String := none
  stage : Option String := none
  path : Option String := none
  aws_profile : Option String := none
  model_map : Option (List (String × String)) := none
  verbose : Option Bool := none
deriving Repr, DecidableEq

/-- `Config.from_file` (config.py lines 41-54): `cls(**data)`, each field in
the file overriding the dataclass default. -/
def Config.from_file (d : FileData) : Config :=
  { gateway_url := d.gateway_url
    api_id := d.api_id
    region := d.region.getD "us-east-1"
    stage := d.stage.getD "prod"
    path := d.path.getD "/invoke"
    aws_profile := d.aws_profile
    model_map := d.model_map.getD defaultModelMap
    verbose := d.verbose.getD false }

/-- The call-time keyword arguments of `BedrockClient.__init__` that feed the
settings merge. -/
structure Overrides where
  gateway_url : Option String := none
  api_id : Option String := none
  region : Option String := none
  profile : Option String := none
  verbose : Bool := false
deriving Repr, DecidableEq

/-- The settings merge of `BedrockClient.__init__` (client.py lines 48-73,
`config=None` path): start from the persisted file (defaults when reading it
failed), overlay the truthy environment values for `gateway_url`, `api_id`,
`aws_profile` and a non-default environment `region`, then overlay the
truthy call-time overrides. -/
def buildConfig (fileData : Option FileData) (env : EnvVars) (ov : Overrides) : Config :=
  let c0 : Config := match fileData with
    | some d => Config.from_file d
    | none => {}
  let e := Config.from_env env
  let c1 := if pyTruthy e.gateway_url then { c0 with gateway_url := e.gateway_url } else c0
  let c2 := if pyTruthy e.api_id then { c1 with api_id := e.api_id } else c1
  let c3 := if e.region ≠ "us-east-1" then { c2 with region := e.region } else c2
  let c4 := if pyTruthy e.aws_profile then { c3 with aws_profile := e.aws_profile } else c3
  let c5 := if pyTruthy ov.gateway_url then { c4 with gateway_url := ov.gateway_url } else c4
  let c6 := if pyTruthy ov.api_id then { c5 with api_id := ov.api_id } else c5
  let c7 := if pyTruthy ov.region then { c6 with region := ov.region.getD "" } else c6
  let c8 := if pyTruthy ov.profile then { c7 with aws_profile := ov.profile } else c7
  if ov.verbose then { c8 with verbose := ov.verbose } else c8

/-- Lookup in a string-to-string map, Python `dict.get` with no default. -/
def mapGet (kvs : List (String × String)) (k : String) : Option String :=
  (kvs.find? (fun p => p.1 == k)).map (fun p => p.2)

/-- The payload dict assembled by `BedrockClient.chat`; `system` is `some`
exactly when the key is added. -/
structure ChatPayload where
  messages : List Json
  model : String
  inferenceConfig : List (String × Json)
  system : Option (List Json)
deriving Repr

/-- Payload construction in `BedrockClient.chat` (client.py lines 121-146):
history then the user message, `maxTokens` always, `temperature`/`topP`
only when not `None`, model alias resolved through `model_map` with the
alias itself as fallback, `system` only when truthy. -/
def buildChatPayload (c : Config) (message : String) (model : String)
    (max_tokens : Int) (temperature : Option Rat) (top_p : Option Rat)
    (system : Option String) (conversation_history : List Json) : ChatPayload :=
  let messages := conversation_history ++
    [Json.obj [("role", .str "user"), ("content", .arr [.obj [("text", .str message)]])]]
  let inference0 : List (String × Json) := [("maxTokens", .num (max_tokens : Rat))]
  let inference1 := match temperature with
    | some t => inference0 ++ [("temperature", Json.num t)]
    | none => inference0
  let inference2 := match top_p with
    | some t => inference1 ++ [("topP", Json.num t)]
    | none => inference1
  { messages := messages
    model := (mapGet c.model_map model).getD model
    inferenceConfig := inference2
    system := match system with
      | some s => if s != "" then some [Json.obj [("text", .str s)]] else none
      | none => none }

/-- Errors the response-handling half of `BedrockClient._send_request` can
raise: the gateway `Exception` for a non-200 status (detail carrying the
Python value interpolated into its message), a `json.JSONDecodeError` from
`response.json()` or `json.loads`, and the `TypeError`/`KeyError`/
`AttributeError` family from dynamic access on unexpected shapes. -/
inductive NormError where
  | gatewayError (statusCode : Nat) (detail : Json)
  | jsonDecodeError (source : String)
  | pyError (msg : String)
deriving Repr

/-- The `BedrockResponse` dataclass (client.py lines 14-25).  Fields filled
from the parsed JSON keep type `Json`, since the dataclass performs no
runtime coercion of what extraction hands it. -/
structure BedrockResponse where
  text : String
  tokens : Json
  input_tokens : Json
  output_tokens : Json
  latency_ms : Json
  request_id : Json
  model : String
  stop_reason : Json
  raw_response : Json
deriving Repr

/-- Python's `k in v` for a string key against a decoded JSON value: key
test on a dict, membership on a list (only a string element can equal `k`),
substring test on a string, `TypeError` otherwise. -/
def pyIn (k : String) : Json → Except NormError Bool
  | .obj fields => .ok (fields.any (fun p => p.1 == k))
  | .arr items => .ok (items.any (fun x => match x with | .str s => s == k | _ => false))
  | .str s => .ok (decide (1 < (s.splitOn k).length))
  | _ => .error (.pyError "TypeError: argument of type is not iterable")

/-- Python's `v[k]` for a string key: dict lookup (raising `KeyError` when
absent), `TypeError` on any non-dict. -/
def pySubscript (v : Json) (k : String) : Except NormError Json :=
  match v with
  | .obj fields =>
      match jsonLookup fields k with
      | some x => .ok x
      | none => .error (.pyError "KeyError")
  | _ => .error (.pyError "TypeError: indices must be integers")

/-- Python's `v.get(k, dflt)`: defaulting dict lookup, `AttributeError` on
any non-dict. -/
def pyGet (v : Json) (k : String) (dflt : Json) : Except NormError Json :=
  match v with
  | .obj fields => .ok ((jsonLookup fields k).getD dflt)
  | _ => .error (.pyError "AttributeError: object has no attribute get")

/-- Python's `for x in v` on a decoded JSON value: the elements of a list,
the keys of a dict, the characters of a string, `TypeError` otherwise. -/
def pyIterate : Json → Except NormError (List Json)
  | .arr items => .ok items
  | .obj fields => .ok (fields.map (fun p => .str p.1))
  | .str s => .ok (s.data.map (fun c => .str (String.mk [c])))
  | _ => .error (.pyError "TypeError: object is not iterable")

/-- The text-accumulation loop of `_send_request` (client.py lines 190-192):
`text += block[\x22text\x22]` for every block having a `text` key. -/
def extractTextLoop : List Json → String → Except NormError String
  | [], acc => .ok acc
  | b :: bs, acc => do
      let hasText ← pyIn "text" b
      if hasText then do
        let t ← pySubscript b "text"
        match t with
        | .str s => extractTextLoop bs (acc ++ s)
        | _ => .error (.pyError "TypeError: can only concatenate str")
      else extractTextLoop bs acc

/-- The envelope unwrapping of `_send_request` (client.py lines 181-184):
when the parsed outer result has a string-typed `body` entry, re-parse that
string; otherwise use the outer result itself. -/
def unwrapEnvelope (result : Json) : Except NormError Json := do
  let hasBody ← pyIn "body" result
  if hasBody then do
    let b ← pySubscript result "body"
    match b with
    | .str s =>
        match json_loads s with
        | some j => pure j
        | none => Except.error (.jsonDecodeError "json.loads of body field")
    | _ => pure result
  else pure result

/-- The text extraction of `_send_request` (client.py lines 186-192): walk
`output`, `message`, `content` guarded by `in` tests and accumulate the
blocks' text. -/
def extractText (bedrock_response : Json) : Except NormError String := do
  let hasOutput ← pyIn "output" bedrock_response
  if hasOutput then do
    let output ← pySubscript bedrock_response "output"
    let hasMessage ← pyIn "message" output
    if hasMessage then do
      let message ← pySubscript output "message"
      let hasContent ← pyIn "content" message
      if hasContent then do
        let content ← pySubscript message "content"
        let blocks ← pyIterate content
        extractTextLoop blocks ""
      else pure ""
    else pure ""
  else pure ""

/-- The response-normalization half of `BedrockClient._send_request`
(client.py lines 170-207): the gateway error for a non-200 status with its
best-effort detail, else JSON-parse the body, unwrap a string `body`
envelope field by re-parsing it, walk `output.message.content` accumulating
block text, and read usage/metrics/stop reason from the inner response but
the `X-Request-ID` header from the outer envelope. -/
def sendRequestNormalize (statusCode : Nat) (body : String) (model_alias : String) :
    Except NormError BedrockResponse :=
  if statusCode ≠ 200 then
    .error (.gatewayError statusCode
      (match json_loads body with
       | some (.obj fields) => (jsonLookup fields "error").getD (.str body)
       | _ => .str body))
  else
    match json_loads body with
    | none => .error (.jsonDecodeError "response.json")
    | some result => do
        let bedrock_response ← unwrapEnvelope result
        let text ← extractText bedrock_response
        let usage ← pyGet bedrock_response "usage" (.obj [])
        let metrics ← pyGet bedrock_response "metrics" (.obj [])
        let tokens ← pyGet usage "totalTokens" (.num 0)
        let input_tokens ← pyGet usage "inputTokens" (.num 0)
        let output_tokens ← pyGet usage "outputTokens" (.num 0)
        let latency_ms ← pyGet metrics "latencyMs" (.num 0)
        let outer_headers ← pyGet result "headers" (.obj [])
        let request_id ← pyGet outer_headers "X-Request-ID" (.str "unknown")
        let stop_reason ← pyGet bedrock_response "stopReason" (.str "unknown")
        pure { text := text
               tokens := tokens
               input_tokens := input_tokens
               output_tokens := output_tokens
               latency_ms := latency_ms
               request_id := request_id
               model := model_alias
               stop_reason := stop_reason
               raw_response := bedrock_response }

/-- The claim's description of inner-response determination (spec §4.5): a
string-typed `body` field of the envelope is re-parsed, anything else makes
the envelope itself the inner response.  Kept separate from
`unwrapEnvelope` so the code can be compared against the spec's words. -/
def innerOfEnvelope (fields : List (String × Json)) : Option Json :=
  match jsonLookup fields "body" with
  | some (.str s) => json_loads s
  | some _ => some (.obj fields)
  | none => some (.obj fields)

/-- The claim's `inner.output.message.content` path (spec §4.5), read
through objects. -/
def contentPath (inner : Json) : Option Json :=
  match inner with
  | .obj f1 =>
      match jsonLookup f1 "output" with
      | some (.obj f2) =>
          match jsonLookup f2 "message" with
          | some (.obj f3) => jsonLookup f3 "content"
          | _ => none
      | _ => none
  | _ => none

/-- The claim's per-block contribution to the extracted text (spec §4.5):
the block's string `text` field, nothing when the block lacks one. -/
def specBlockText : Json → String
  | .obj fields =>
      match jsonLookup fields "text" with
      | some (.str s) => s
      | _ => ""
  | _ => ""

/-- The `output.message.content` walk is cut off by an absent field, with
objects along the prefix that exists: the situation spec §4.5 says yields
`text = ""` without failing. -/
def textCutOff (fields : List (String × Json)) : Prop :=
  match jsonLookup fields "output" with
  | none => True
  | some (.obj f2) =>
      match jsonLookup f2 "message" with
      | none => True
      | some (.obj f3) => jsonLookup f3 "content" = none
      | some _ => False
  | some _ => False

/-- The `usage` object or each of its token fields is absent. -/
def usageCutOff (fields : List (String × Json)) : Prop :=
  match jsonLookup fields "usage" with
  | none => True
  | some (.obj f) =>
      jsonLookup f "totalTokens" = none ∧ jsonLookup f "inputTokens" = none ∧
        jsonLookup f "outputTokens" = none
  | some _ => False

/-- The `metrics` object or its `latencyMs` field is absent. -/
def metricsCutOff (fields : List (String × Json)) : Prop :=
  match jsonLookup fields "metrics" with
  | none => True
  | some (.obj f) => jsonLookup f "latencyMs" = none
  | some _ => False

/-- The outer envelope's `headers` object or its `X-Request-ID` key is
absent. -/
def headersCutOff (fields : List (String × Json)) : Prop :=
  match jsonLookup fields "headers" with
  | none => True
  | some (.obj f) => jsonLookup f "X-Request-ID" = none
  | some _ => False

/-- What the claim predicts for the outer-envelope request id (spec §4.5):
`envelope.headers["X-Request-ID"]` with `"unknown"` as the default at both
levels. -/
def specRequestId (fields : List (String × Json)) : Json :=
  match jsonLookup fields "headers" with
  | some (.obj hf) => (jsonLookup hf "X-Request-ID").getD (.str "unknown")
  | some _ => .str "unknown"
  | none => .str "unknown"

/-- Bind on an `ok` reduces to the continuation. -/
theorem ebind_ok {ε α β : Type} (a : α) (f : α → Except ε β) :
    (Except.ok a >>= f) = f a := rfl

/-- Bind on an `error` short-circuits. -/
theorem ebind_error {ε α β : Type} (e : ε) (f : α → Except ε β) :
    ((Except.error e : Except ε α) >>= f) = Except.error e := rfl

/-- Map on an `ok` applies the function. -/
theorem emap_ok {ε α β : Type} (f : α → β) (a : α) :
    (f <$> (Except.ok a : Except ε α)) = Except.ok (f a) := rfl

/-- Map on an `error` short-circuits. -/
theorem emap_error {ε α β : Type} (f : α → β) (e : ε) :
    (f <$> (Except.error e : Except ε α)) = Except.error e := rfl

/-- A successful bind came from a successful first step. -/
theorem ebind_ok_inv {ε α β : Type} {e : Except ε α}
    {f : α → Except ε β} {b : β} (h : (e >>= f) = .ok b) :
    ∃ a, e = .ok a ∧ f a = .ok b := by
  cases e with
  | error err => simp [ebind_error] at h
  | ok a => exact ⟨a, rfl, h⟩

/-- A key with no binding makes the `any`-key test false. -/
theorem anyKey_false_of_lookup_none {fields : List (String × Json)} {k : String}
    (h : jsonLookup fields k = none) :
    fields.any (fun p => p.1 == k) = false := by
  induction fields with
  | nil => rfl
  | cons q rest ih =>
      rcases hq : (q.1 == k) with _ | _
      · simp only [jsonLookup, List.find?_cons, hq] at h
        simp only [List.any_cons, hq, Bool.false_or]
        exact ih h
      · simp [jsonLookup, List.find?_cons, hq] at h

/-- A bound key makes the `any`-key test true. -/
theorem anyKey_true_of_lookup_some {fields : List (String × Json)} {k : String}
    {v : Json} (h : jsonLookup fields k = some v) :
    fields.any (fun p => p.1 == k) = true := by
  induction fields with
  | nil => simp [jsonLookup] at h
  | cons q rest ih =>
      rcases hq : (q.1 == k) with _ | _
      · simp only [jsonLookup, List.find?_cons, hq] at h
        simp only [List.any_cons, hq, Bool.false_or]
        exact ih h
      · simp [List.any_cons, hq]

/-- The code's envelope unwrapping realizes the spec's description: whenever
the latter produces an inner response, the former returns it. -/
theorem unwrapEnvelope_of_innerOf {kvs : List (String × Json)} {j : Json}
    (h : innerOfEnvelope kvs = some j) :
    unwrapEnvelope (.obj kvs) = .ok j := by
  unfold innerOfEnvelope at h
  rcases hb : jsonLookup kvs "body" with _ | v
  · rw [hb] at h
    obtain rfl := Option.some.inj h
    simp [unwrapEnvelope, pyIn, anyKey_false_of_lookup_none hb, ebind_ok, pure, Except.pure]
  · rw [hb] at h
    cases v with
    | str s =>
        simp only at h
        simp [unwrapEnvelope, pyIn, anyKey_true_of_lookup_some hb, ebind_ok,
          pySubscript, hb, h, pure, Except.pure]
    | null =>
        obtain rfl := Option.some.inj h
        simp [unwrapEnvelope, pyIn, anyKey_true_of_lookup_some hb, ebind_ok,
          pySubscript, hb, pure, Except.pure]
    | bool b =>
        obtain rfl := Option.some.inj h
        simp [unwrapEnvelope, pyIn, anyKey_true_of_lookup_some hb, ebind_ok,
          pySubscript, hb, pure, Except.pure]
    | num q =>
        obtain rfl := Option.some.inj h
        simp [unwrapEnvelope, pyIn, anyKey_true_of_lookup_some hb, ebind_ok,
          pySubscript, hb, pure, Except.pure]
    | nan =>
        obtain rfl := Option.some.inj h
        simp [unwrapEnvelope, pyIn, anyKey_true_of_lookup_some hb, ebind_ok,
          pySubscript, hb, pure, Except.pure]
    | inf ng =>
        obtain rfl := Option.some.inj h
        simp [unwrapEnvelope, pyIn, anyKey_true_of_lookup_some hb, ebind_ok,
          pySubscript, hb, pure, Except.pure]
    | arr items =>
        obtain rfl := Option.some.inj h
        simp [unwrapEnvelope, pyIn, anyKey_true_of_lookup_some hb, ebind_ok,
          pySubscript, hb, pure, Except.pure]
    | obj fs =>
        obtain rfl := Option.some.inj h
        simp [unwrapEnvelope, pyIn, anyKey_true_of_lookup_some hb, ebind_ok,
          pySubscript, hb, pure, Except.pure]

/-- Conversely, a successful unwrapping is what the spec's description
predicts. -/
theorem innerOf_of_unwrapEnvelope {kvs : List (String × Json)} {j : Json}
    (h : unwrapEnvelope (.obj kvs) = .ok j) :
    innerOfEnvelope kvs = some j := by
  unfold unwrapEnvelope at h
  rcases hb : jsonLookup kvs "body" with _ | v
  · rw [show pyIn "body" (Json.obj kvs) = .ok (kvs.any fun p => p.1 == "body") from rfl,
      anyKey_false_of_lookup_none hb, ebind_ok] at h
    simp only [Bool.false_eq_true, if_false] at h
    simp [innerOfEnvelope, hb]
    exact (Except.ok.inj h)
  · rw [show pyIn "body" (Json.obj kvs) = .ok (kvs.any fun p => p.1 == "body") from rfl,
      anyKey_true_of_lookup_some hb, ebind_ok] at h
    simp only [if_true] at h
    rw [show pySubscript (Json.obj kvs) "body" = .ok v by simp [pySubscript, hb],
      ebind_ok] at h
    cases v with
    | str s =>
        simp only [innerOfEnvelope, hb]
        rcases hs : json_loads s with _ | j2
        · simp only [hs, pure, Except.pure] at h; exact absurd h (by simp)
        · simp only [hs, pure, Except.pure, Except.ok.injEq] at h
          rw [h]
    | null => simp only [innerOfEnvelope, hb]; exact congrArg some (Except.ok.inj h)
    | bool b => simp only [innerOfEnvelope, hb]; exact congrArg some (Except.ok.inj h)
    | num q => simp only [innerOfEnvelope, hb]; exact congrArg some (Except.ok.inj h)
    | nan => simp only [innerOfEnvelope, hb]; exact congrArg some (Except.ok.inj h)
    | inf ng => simp only [innerOfEnvelope, hb]; exact congrArg some (Except.ok.inj h)
    | arr items => simp only [innerOfEnvelope, hb]; exact congrArg some (Except.ok.inj h)
    | obj fs => simp only [innerOfEnvelope, hb]; exact congrArg some (Except.ok.inj h)

/-- The claim's in-order concatenation of the blocks' text contributions
(spec §4.5). -/
def specTextConcat : List Json → String
  | [] => ""
  | b :: bs => specBlockText b ++ specTextConcat bs

/-- A successful run of the accumulation loop computes the claim's
concatenation, appended to the accumulator it started from. -/
theorem extractTextLoop_ok : ∀ {blocks : List Json} {acc s : String},
    extractTextLoop blocks acc = .ok s → s = acc ++ specTextConcat blocks := by
  intro blocks
  induction blocks with
  | nil =>
      intro acc s h
      simp only [extractTextLoop] at h
      simp [specTextConcat, (Except.ok.inj h).symm]
  | cons b bs ih =>
      intro acc s h
      unfold extractTextLoop at h
      cases b with
      | obj f =>
          simp only [pyIn] at h
          rw [ebind_ok] at h
          split at h
          · simp only [pySubscript] at h
            rcases ht : jsonLookup f "text" with _ | tv
            · simp only [ht] at h
              rw [ebind_error] at h
              exact absurd h (by simp)
            · simp only [ht] at h
              rw [ebind_ok] at h
              cases tv with
              | str s0 =>
                  have := ih h
                  simp [specTextConcat, specBlockText, ht, this, String.append_assoc]
              | null => exact absurd h (by simp)
              | bool b0 => exact absurd h (by simp)
              | num q0 => exact absurd h (by simp)
              | nan => exact absurd h (by simp)
              | inf ng => exact absurd h (by simp)
              | arr xs => exact absurd h (by simp)
              | obj fs => exact absurd h (by simp)
          · rename_i hany
            rcases ht : jsonLookup f "text" with _ | tv
            · have := ih h
              simp [specTextConcat, specBlockText, ht, this]
            · exact absurd (anyKey_true_of_lookup_some ht) hany
      | arr items =>
          simp only [pyIn] at h
          rw [ebind_ok] at h
          split at h
          · simp only [pySubscript] at h
            rw [ebind_error] at h
            exact absurd h (by simp)
          · have := ih h
            simp [specTextConcat, specBlockText, this]
      | str s0 =>
          simp only [pyIn] at h
          rw [ebind_ok] at h
          split at h
          · simp only [pySubscript] at h
            rw [ebind_error] at h
            exact absurd h (by simp)
          · have := ih h
            simp [specTextConcat, specBlockText, this]
      | null =>
          simp only [pyIn] at h
          rw [ebind_error] at h
          exact absurd h (by simp)
      | bool b0 =>
          simp only [pyIn] at h
          rw [ebind_error] at h
          exact absurd h (by simp)
      | num q0 =>
          simp only [pyIn] at h
          rw [ebind_error] at h
          exact absurd h (by simp)
      | nan =>
          simp only [pyIn] at h
          rw [ebind_error] at h
          exact absurd h (by simp)
      | inf ng =>
          simp only [pyIn] at h
          rw [ebind_error] at h
          exact absurd h (by simp)

/-- When the walk is cut off by an absent field, extraction yields the empty
string and does not fail. -/
theorem extractText_cutOff {fields : List (String × Json)} (h : textCutOff fields) :
    extractText (.obj fields) = .ok "" := by
  unfold textCutOff at h
  rcases ho : jsonLookup fields "output" with _ | out
  · simp [extractText, pyIn, anyKey_false_of_lookup_none ho, ebind_ok, pure, Except.pure]
  · rw [ho] at h
    cases out with
    | obj f2 =>
        simp only at h
        rcases hm : jsonLookup f2 "message" with _ | msg
        · simp [extractText, pyIn, anyKey_true_of_lookup_some ho, ebind_ok,
            pySubscript, ho, anyKey_false_of_lookup_none hm, pure, Except.pure]
        · rw [hm] at h
          cases msg with
          | obj f3 =>
              simp only at h
              simp [extractText, pyIn, anyKey_true_of_lookup_some ho, ebind_ok,
                pySubscript, ho, hm, anyKey_true_of_lookup_some hm,
                anyKey_false_of_lookup_none h, pure, Except.pure]
          | null => exact h.elim
          | bool b => exact h.elim
          | num q => exact h.elim
          | nan => exact h.elim
          | inf ng => exact h.elim
          | str s => exact h.elim
          | arr xs => exact h.elim
    | null => exact h.elim
    | bool b => exact h.elim
    | num q => exact h.elim
    | nan => exact h.elim
    | inf ng => exact h.elim
    | str s => exact h.elim
    | arr xs => exact h.elim

/-- When the `output.message.content` path exists through objects and ends
in an array, extraction runs the accumulation loop on its blocks. -/
theorem extractText_content {fields f2 f3 : List (String × Json)} {blocks : List Json}
    (ho : jsonLookup fields "output" = some (.obj f2))
    (hm : jsonLookup f2 "message" = some (.obj f3))
    (hc : jsonLookup f3 "content" = some (.arr blocks)) :
    extractText (.obj fields) = extractTextLoop blocks "" := by
  simp [extractText, pyIn, anyKey_true_of_lookup_some ho, ebind_ok, pySubscript,
    ho, hm, hc, anyKey_true_of_lookup_some hm, anyKey_true_of_lookup_some hc,
    pyIterate]

/-- The computation never fails with the gateway-error exception. -/
def noGateway {α : Type} (e : Except NormError α) : Prop :=
  ∀ s d, e ≠ .error (.gatewayError s d)

/-- A success trivially raises no gateway error. -/
theorem noGateway_ok {α : Type} (a : α) : noGateway (Except.ok a) := by
  intro s d h
  exact Except.noConfusion h

/-- A decode error is not a gateway error. -/
theorem noGateway_jsonDecode {α : Type} (src : String) :
    noGateway (Except.error (NormError.jsonDecodeError src) : Except NormError α) := by
  intro s d h
  exact NormError.noConfusion (Except.error.inj h)

/-- A dynamic-typing error is not a gateway error. -/
theorem noGateway_pyError {α : Type} (m : String) :
    noGateway (Except.error (NormError.pyError m) : Except NormError α) := by
  intro s d h
  exact NormError.noConfusion (Except.error.inj h)

/-- Gateway-error freedom is preserved by sequencing. -/
theorem noGateway_bind {α β : Type} {e : Except NormError α}
    {f : α → Except NormError β} (h1 : noGateway e) (h2 : ∀ a, noGateway (f a)) :
    noGateway (e >>= f) := by
  cases e with
  | error err =>
      rw [ebind_error]
      intro s d hcontra
      exact h1 s d (congrArg Except.error (Except.error.inj hcontra))
  | ok a => rw [ebind_ok]; exact h2 a

/-- The `in` test raises no gateway error. -/
theorem noGateway_pyIn (k : String) (v : Json) : noGateway (pyIn k v) := by
  cases v <;> first
    | exact noGateway_ok _
    | exact noGateway_pyError _

/-- Subscripting raises no gateway error. -/
theorem noGateway_pySubscript (v : Json) (k : String) : noGateway (pySubscript v k) := by
  unfold pySubscript
  cases v <;> try exact noGateway_pyError _
  case obj fields =>
    rcases hl : jsonLookup fields k with _ | x
    · simp only [hl]; exact noGateway_pyError _
    · simp only [hl]; exact noGateway_ok _

/-- Defaulting lookup raises no gateway error. -/
theorem noGateway_pyGet (v : Json) (k : String) (dflt : Json) :
    noGateway (pyGet v k dflt) := by
  cases v <;> first
    | exact noGateway_ok _
    | exact noGateway_pyError _

/-- Iteration raises no gateway error. -/
theorem noGateway_pyIterate (v : Json) : noGateway (pyIterate v) := by
  cases v <;> first
    | exact noGateway_ok _
    | exact noGateway_pyError _

/-- The accumulation loop raises no gateway error. -/
theorem noGateway_extractTextLoop :
    ∀ (blocks : List Json) (acc : String), noGateway (extractTextLoop blocks acc) := by
  intro blocks
  induction blocks with
  | nil => intro acc; exact noGateway_ok _
  | cons b bs ih =>
      intro acc
      unfold extractTextLoop
      apply noGateway_bind (noGateway_pyIn _ _)
      intro hasText
      split
      · apply noGateway_bind (noGateway_pySubscript _ _)
        intro t
        cases t <;> first
          | exact ih _
          | exact noGateway_pyError _
      · exact ih _

/-- Text extraction raises no gateway error. -/
theorem noGateway_extractText (v : Json) : noGateway (extractText v) := by
  unfold extractText
  apply noGateway_bind (noGateway_pyIn _ _)
  intro hasOutput
  split
  · apply noGateway_bind (noGateway_pySubscript _ _)
    intro output
    apply noGateway_bind (noGateway_pyIn _ _)
    intro hasMessage
    split
    · apply noGateway_bind (noGateway_pySubscript _ _)
      intro message
      apply noGateway_bind (noGateway_pyIn _ _)
      intro hasContent
      split
      · apply noGateway_bind (noGateway_pySubscript _ _)
        intro content
        apply noGateway_bind (noGateway_pyIterate _)
        intro blocks
        exact noGateway_extractTextLoop _ _
      · exact noGateway_ok _
    · exact noGateway_ok _
  · exact noGateway_ok _

/-- Envelope unwrapping raises no gateway error. -/
theorem noGateway_unwrapEnvelope (v : Json) : noGateway (unwrapEnvelope v) := by
  unfold unwrapEnvelope
  apply noGateway_bind (noGateway_pyIn _ _)
  intro hasBody
  split
  · apply noGateway_bind (noGateway_pySubscript _ _)
    intro b
    cases b <;> try exact noGateway_ok _
    case str s =>
      rcases hs : json_loads s with _ | j
      · simp only [hs]; exact noGateway_jsonDecode _
      · simp only [hs]; exact noGateway_ok _
  · exact noGateway_ok _

/-- No run of the normalizer at status 200 produces a gateway error. -/
theorem noGateway_normalize_200 (body al : String) :
    noGateway (sendRequestNormalize 200 body al) := by
  unfold sendRequestNormalize
  rw [if_neg (by decide)]
  rcases hp : json_loads body with _ | result
  · exact noGateway_jsonDecode _
  · apply noGateway_bind (noGateway_unwrapEnvelope _)
    intro br
    apply noGateway_bind (noGateway_extractText _)
    intro text
    apply noGateway_bind (noGateway_pyGet _ _ _)
    intro usage
    apply noGateway_bind (noGateway_pyGet _ _ _)
    intro metrics
    apply noGateway_bind (noGateway_pyGet _ _ _)
    intro tokens
    apply noGateway_bind (noGateway_pyGet _ _ _)
    intro itok
    apply noGateway_bind (noGateway_pyGet _ _ _)
    intro otok
    apply noGateway_bind (noGateway_pyGet _ _ _)
    intro lat
    apply noGateway_bind (noGateway_pyGet _ _ _)
    intro hdrs
    apply noGateway_bind (noGateway_pyGet _ _ _)
    intro rid
    apply noGateway_bind (noGateway_pyGet _ _ _)
    intro stop
    exact noGateway_ok _

/-- Shape of any successful normalization at status 200: every stage
succeeded and the result record collects the stages' values. -/
theorem normalize_ok_inv {body al : String} {result : Json} {r : BedrockResponse}
    (hEnv : json_loads body = some result)
    (h : sendRequestNormalize 200 body al = .ok r) :
    ∃ br text usage metrics tokens itok otok lat hdrs rid stop,
      unwrapEnvelope result = .ok br ∧
      extractText br = .ok text ∧
      pyGet br "usage" (.obj []) = .ok usage ∧
      pyGet br "metrics" (.obj []) = .ok metrics ∧
      pyGet usage "totalTokens" (.num 0) = .ok tokens ∧
      pyGet usage "inputTokens" (.num 0) = .ok itok ∧
      pyGet usage "outputTokens" (.num 0) = .ok otok ∧
      pyGet metrics "latencyMs" (.num 0) = .ok lat ∧
      pyGet result "headers" (.obj []) = .ok hdrs ∧
      pyGet hdrs "X-Request-ID" (.str "unknown") = .ok rid ∧
      pyGet br "stopReason" (.str "unknown") = .ok stop ∧
      r = { text := text, tokens := tokens, input_tokens := itok,
            output_tokens := otok, latency_ms := lat, request_id := rid,
            model := al, stop_reason := stop, raw_response := br } := by
  unfold sendRequestNormalize at h
  rw [if_neg (by decide)] at h
  simp only [hEnv] at h
  obtain ⟨br, hbr, h⟩ := ebind_ok_inv h
  obtain ⟨text, htext, h⟩ := ebind_ok_inv h
  obtain ⟨usage, husage, h⟩ := ebind_ok_inv h
  obtain ⟨metrics, hmetrics, h⟩ := ebind_ok_inv h
  obtain ⟨tokens, htokens, h⟩ := ebind_ok_inv h
  obtain ⟨itok, hitok, h⟩ := ebind_ok_inv h
  obtain ⟨otok, hotok, h⟩ := ebind_ok_inv h
  obtain ⟨lat, hlat, h⟩ := ebind_ok_inv h
  obtain ⟨hdrs, hhdrs, h⟩ := ebind_ok_inv h
  obtain ⟨rid, hrid, h⟩ := ebind_ok_inv h
  obtain ⟨stop, hstop, h⟩ := ebind_ok_inv h
  exact ⟨br, text, usage, metrics, tokens, itok, otok, lat, hdrs, rid, stop,
    hbr, htext, husage, hmetrics, htokens, hitok, hotok, hlat, hhdrs, hrid,
    hstop, (Except.ok.inj h).symm⟩

/-- C1 counterexample: with both `gateway_url` and `api_id` set, the code
returns the url verbatim but the `api_id`-derived host, not the authority
parsed out of the gateway url as the claim states: at this input the
resolved host differs from the gateway url's authority. -/
theorem C1_counterexample :
    resolveEndpoint { gateway_url := some "https://x.example.com/prod/invoke",
                      api_id := some "abc123" } =
      .ok { url := "https://x.example.com/prod/invoke",
            host := "abc123.execute-api.us-east-1.amazonaws.com" }
    ∧ urlparseNetloc "https://x.example.com/prod/invoke" = "x.example.com"
    ∧ "abc123.execute-api.us-east-1.amazonaws.com" ≠ "x.example.com" :=
  ⟨rfl, rfl, by decide⟩

/-- C1 (amended): when both `gatewayUrl` and `endpointId` are set, resolution
returns `url` equal to the gatewayUrl value verbatim, but `host` equal to
the endpointId-derived `{id}.execute-api.{region}.amazonaws.com`; the
authority parsed out of the gatewayUrl is used for `host` only when
`endpointId` is unset. -/
theorem C1_amended_host_priority (c : Config)
    (hgw : pyTruthy c.gateway_url = true) (hid : pyTruthy c.api_id = true) :
    resolveEndpoint c =
      .ok { url := c.gateway_url.getD "",
            host := c.api_id.getD "" ++ ".execute-api." ++ c.region ++ ".amazonaws.com" } := by
  simp [resolveEndpoint, Config.get_full_url, Config.get_host, hgw, hid,
    ebind_ok, emap_ok, pure, Except.pure]

/-- C1 amended witness at the counterexample's configuration. -/
theorem C1_amended_witness :
    resolveEndpoint { gateway_url := some "https://x.example.com/prod/invoke",
                      api_id := some "abc123" } =
      .ok { url := "https://x.example.com/prod/invoke",
            host := "abc123.execute-api.us-east-1.amazonaws.com" } := by
  exact C1_amended_host_priority _ rfl rfl

/-- C2 counterexample: with the persisted stage `"dev"`, the environment
stage `"test"` set and no call-time override, the claim predicts the
effective stage `"test"`, but the merge never consults the environment
stage and yields `"dev"`. -/
theorem C2_counterexample :
    (buildConfig (some { stage := some "dev" }) { stage := some "test" } {}).stage = "dev"
    ∧ "dev" ≠ "test" :=
  ⟨rfl, by decide⟩

/-- C2 (amended): the claimed override/environment/persisted/default
precedence holds per-field for `gatewayUrl`, `endpointId`, `region` (the
environment region only when it differs from the default) and the
credential profile; but for `stage`, `path` and the alias map the
environment and call-time layers do not apply at all (persisted value else
default, even when the environment value is set), and for `verbose` only
the call-time override (when true) and the persisted value apply, never the
environment value. -/
theorem C2_amended_precedence (fd : FileData) (env : EnvVars) (ov : Overrides) :
    (buildConfig (some fd) env ov).gateway_url =
      (if pyTruthy ov.gateway_url then ov.gateway_url
       else if pyTruthy env.gateway_url then env.gateway_url
       else fd.gateway_url)
    ∧ (buildConfig (some fd) env ov).api_id =
      (if pyTruthy ov.api_id then ov.api_id
       else if pyTruthy env.api_id then env.api_id
       else fd.api_id)
    ∧ (buildConfig (some fd) env ov).region =
      (if pyTruthy ov.region then ov.region.getD ""
       else if env.region.getD "us-east-1" ≠ "us-east-1" then env.region.getD "us-east-1"
       else fd.region.getD "us-east-1")
    ∧ (buildConfig (some fd) env ov).aws_profile =
      (if pyTruthy ov.profile then ov.profile
       else if pyTruthy env.aws_profile then env.aws_profile
       else fd.aws_profile)
    ∧ (buildConfig (some fd) env ov).stage = fd.stage.getD "prod"
    ∧ (buildConfig (some fd) env ov).path = fd.path.getD "/invoke"
    ∧ (buildConfig (some fd) env ov).model_map = fd.model_map.getD defaultModelMap
    ∧ (buildConfig (some fd) env ov).verbose =
      (if ov.verbose then true else fd.verbose.getD false) := by
  refine ⟨?_, ?_, ?_, ?_, ?_, ?_, ?_, ?_⟩
  · simp [buildConfig, Config.from_env, Config.from_file, apply_ite Config.gateway_url]
  · simp [buildConfig, Config.from_env, Config.from_file, apply_ite Config.api_id]
  · simp [buildConfig, Config.from_env, Config.from_file, apply_ite Config.region]
  · simp [buildConfig, Config.from_env, Config.from_file, apply_ite Config.aws_profile]
  · simp [buildConfig, Config.from_env, Config.from_file, apply_ite Config.stage]
  · simp [buildConfig, Config.from_env, Config.from_file, apply_ite Config.path]
  · simp [buildConfig, Config.from_env, Config.from_file, apply_ite Config.model_map]
  · cases hv : ov.verbose <;>
      simp [buildConfig, Config.from_env, Config.from_file, hv, apply_ite Config.verbose]

/-- C7 (confirmed): with `gatewayUrl` unset and `endpointId` set, resolution
derives the documented execute-api url and host from the effective
endpointId, region, stage and path. -/
theorem C7_derived_endpoint (c : Config)
    (hgw : pyTruthy c.gateway_url = false) (hid : pyTruthy c.api_id = true) :
    resolveEndpoint c =
      .ok { url := "https://" ++ c.api_id.getD "" ++ ".execute-api." ++ c.region
              ++ ".amazonaws.com/" ++ c.stage ++ c.path,
            host := c.api_id.getD "" ++ ".execute-api." ++ c.region ++ ".amazonaws.com" } := by
  simp [resolveEndpoint, Config.get_full_url, Config.get_host, hgw, hid,
    ebind_ok, emap_ok, pure, Except.pure]

/-- C7 witness at the spec's example inputs. -/
theorem C7_witness :
    resolveEndpoint { api_id := some "abc123", region := "ap-southeast-2" } =
      .ok { url := "https://abc123.execute-api.ap-southeast-2.amazonaws.com/prod/invoke",
            host := "abc123.execute-api.ap-southeast-2.amazonaws.com" } := by
  exact C7_derived_endpoint _ rfl rfl

/-- A plain netloc contains neither square bracket, so the bracket test of
`urlsplit` passes on it. -/
theorem bracketMismatch_false_of_plain {ns : String} (h : plainNetloc ns = true) :
    bracketMismatch ns = false := by
  unfold plainNetloc at h
  have hall := List.all_eq_true.mp h
  have h1 : ns.data.contains '[' = false := by
    rcases hc : ns.data.contains '[' with _ | _
    · rfl
    · have hm := List.contains_iff_exists_mem_beq.mp hc
      rcases hm with ⟨x, hx, hbeq⟩
      obtain rfl : x = '[' := (eq_of_beq hbeq).symm
      have := hall _ hx
      simp at this
  have h2 : ns.data.contains ']' = false := by
    rcases hc : ns.data.contains ']' with _ | _
    · rfl
    · have hm := List.contains_iff_exists_mem_beq.mp hc
      rcases hm with ⟨x, hx, hbeq⟩
      obtain rfl : x = ']' := (eq_of_beq hbeq).symm
      have := hall _ hx
      simp at this
  simp only [bracketMismatch, h1, h2]
  rfl

/-- C8 counterexample: with `gateway_url = "https://[abc"` set (and no
`api_id`), `urlparse` raises `ValueError("Invalid IPv6 URL")` inside
`get_host`, so resolution fails although `gatewayUrl` is set, refuting the
claimed equivalence (the constructor surfaces this `ValueError` wrapped with
the same configuration guidance). -/
theorem C8_counterexample :
    pyTruthy (some "https://[abc") = true
    ∧ resolveEndpoint { gateway_url := some "https://[abc" } =
        .error (.valueError "Invalid IPv6 URL") :=
  ⟨rfl, rfl⟩

/-- C8 (amended): resolution fails with the guidance configuration error
when neither `gatewayUrl` nor `endpointId` is set; with `endpointId` set it
always succeeds; with only `gatewayUrl` set it succeeds, with the parsed
authority as host, whenever that authority is a plain bracket-free ASCII
netloc, but fails with the `Invalid IPv6 URL` `ValueError` of `urlsplit`
when the authority has mismatched brackets. -/
theorem C8_amended_resolution (c : Config) :
    (pyTruthy c.gateway_url = false ∧ pyTruthy c.api_id = false →
      resolveEndpoint c = .error (.configurationError configurationGuidance))
    ∧ (pyTruthy c.api_id = true → ∃ r, resolveEndpoint c = .ok r)
    ∧ (∀ u, c.gateway_url = some u → pyTruthy c.gateway_url = true →
        pyTruthy c.api_id = false →
        (plainNetloc (urlparseNetloc u) = true →
          resolveEndpoint c = .ok { url := u, host := urlparseNetloc u })
        ∧ (bracketMismatch (urlparseNetloc u) = true →
          resolveEndpoint c = .error (.valueError "Invalid IPv6 URL"))) := by
  refine ⟨?_, ?_, ?_⟩
  · rintro ⟨h1, h2⟩
    simp [resolveEndpoint, Config.get_full_url, h1, h2, ebind_error]
  · intro hid
    rcases hgw : pyTruthy c.gateway_url with _ | _
    · refine ⟨{ url := "https://" ++ c.api_id.getD "" ++ ".execute-api." ++ c.region
                        ++ ".amazonaws.com/" ++ c.stage ++ c.path,
                host := c.api_id.getD "" ++ ".execute-api." ++ c.region
                        ++ ".amazonaws.com" }, ?_⟩
      simp [resolveEndpoint, Config.get_full_url, Config.get_host, hgw, hid,
        ebind_ok, emap_ok, pure, Except.pure]
    · refine ⟨{ url := c.gateway_url.getD "",
                host := c.api_id.getD "" ++ ".execute-api." ++ c.region
                        ++ ".amazonaws.com" }, ?_⟩
      simp [resolveEndpoint, Config.get_full_url, Config.get_host, hgw, hid,
        ebind_ok, emap_ok, pure, Except.pure]
  · intro u hu hgw hid
    rw [hu] at hgw
    constructor
    · intro hplain
      simp [resolveEndpoint, Config.get_full_url, Config.get_host, hgw, hid, hu,
        urlparseNetlocE, bracketMismatch_false_of_plain hplain,
        ebind_ok, emap_ok, pure, Except.pure]
    · intro hmis
      simp [resolveEndpoint, Config.get_full_url, Config.get_host, hgw, hid, hu,
        urlparseNetlocE, hmis, ebind_ok, ebind_error, emap_error, pure, Except.pure]

/-- C8 amended witness: the empty configuration fails with the guidance
error, an `api_id`-only configuration resolves, a plain gateway url resolves
with its authority as host, and a bracket-mismatched gateway url fails with
the `Invalid IPv6 URL` error. -/
theorem C8_amended_witness :
    resolveEndpoint {} = .error (.configurationError configurationGuidance)
    ∧ (∃ r, resolveEndpoint { api_id := some "abc123" } = .ok r)
    ∧ resolveEndpoint { gateway_url := some "https://x.example.com/prod/invoke" } =
        .ok { url := "https://x.example.com/prod/invoke", host := "x.example.com" }
    ∧ resolveEndpoint { gateway_url := some "https://[abc" } =
        .error (.valueError "Invalid IPv6 URL") := by
  refine ⟨(C8_amended_resolution {}).1 ⟨rfl, rfl⟩,
    (C8_amended_resolution { api_id := some "abc123" }).2.1 rfl, ?_, ?_⟩
  · exact ((C8_amended_resolution
      { gateway_url := some "https://x.example.com/prod/invoke" }).2.2
      "https://x.example.com/prod/invoke" rfl rfl rfl).1 rfl
  · exact ((C8_amended_resolution { gateway_url := some "https://[abc" }).2.2
      "https://[abc" rfl rfl rfl).2 rfl

/-- C9 (confirmed): the payload's model field is the alias map's entry when
the alias is a key, and the alias string itself verbatim otherwise. -/
theorem C9_model_alias_fallback (c : Config) (message mdl : String) (mt : Int)
    (temp tp : Option Rat) (sys : Option String) (hist : List Json) :
    (∀ mid, mapGet c.model_map mdl = some mid →
      (buildChatPayload c message mdl mt temp tp sys hist).model = mid)
    ∧ (mapGet c.model_map mdl = none →
      (buildChatPayload c message mdl mt temp tp sys hist).model = mdl) := by
  constructor
  · intro mid hm
    simp [buildChatPayload, hm]
  · intro hm
    simp [buildChatPayload, hm]

/-- C9 witness: an unmapped identifier passes through unchanged; a mapped
alias resolves through the default map. -/
theorem C9_witness :
    mapGet defaultModelMap "custom.unmapped-id" = none
    ∧ (buildChatPayload {} "hi" "custom.unmapped-id" 100 none none none []).model
        = "custom.unmapped-id"
    ∧ mapGet defaultModelMap "sonnet-4.5" = some "anthropic.claude-sonnet-4-5-v1:0"
    ∧ (buildChatPayload {} "hi" "sonnet-4.5" 100 none none none []).model
        = "anthropic.claude-sonnet-4-5-v1:0" := by
  refine ⟨rfl, ?_, rfl, ?_⟩
  · exact (C9_model_alias_fallback {} "hi" "custom.unmapped-id" 100 none none none []).2 rfl
  · exact (C9_model_alias_fallback {} "hi" "sonnet-4.5" 100 none none none []).1 _ rfl

/-- C3 (confirmed): for every non-200 status the normalizer fails with the
gateway error carrying that status and a detail that is the body's JSON
`error` field when the body parses to an object containing one and the raw
body text otherwise; and at status 200 it never fails with a gateway
error. -/
theorem C3_gateway_error (status : Nat) (body al : String) :
    (status ≠ 200 →
      sendRequestNormalize status body al =
        .error (.gatewayError status
          (match json_loads body with
           | some (.obj fields) => (jsonLookup fields "error").getD (.str body)
           | _ => Json.str body)))
    ∧ ∀ s d, sendRequestNormalize 200 body al ≠ .error (.gatewayError s d) := by
  constructor
  · intro hs
    unfold sendRequestNormalize
    rw [if_pos hs]
  · exact noGateway_normalize_200 body al

/-- C3 witness at the spec's error-path examples: status 403 with a JSON
`error` body, status 500 with a non-JSON body, and a body mixing a `NaN`
constant with an `error` field (which still parses, so the detail is the
`error` field, not the raw text). -/
theorem C3_witness :
    (403 : Nat) ≠ 200
    ∧ sendRequestNormalize 403 "\x7b\"error\":\"forbidden\"\x7d" "m" =
        .error (.gatewayError 403 (.str "forbidden"))
    ∧ sendRequestNormalize 500 "internal failure" "m" =
        .error (.gatewayError 500 (.str "internal failure"))
    ∧ sendRequestNormalize 403 "\x7b\"a\": NaN, \"error\": \"x\"\x7d" "m" =
        .error (.gatewayError 403 (.str "x")) := by
  refine ⟨by decide, ?_, ?_, ?_⟩
  · exact (C3_gateway_error 403 "\x7b\"error\":\"forbidden\"\x7d" "m").1 (by decide)
  · exact (C3_gateway_error 500 "internal failure" "m").1 (by decide)
  · exact (C3_gateway_error 403 "\x7b\"a\": NaN, \"error\": \"x\"\x7d" "m").1 (by decide)

/-- C10 (confirmed): at status 200, an unparseable outer body, or a
string-typed envelope `body` field whose contents are unparseable, makes
normalization fail with a decode error, which is a different error from the
gateway error and yields no result. -/
theorem C10_parse_failure (al : String) :
    (∀ body, json_loads body = none →
      sendRequestNormalize 200 body al = .error (.jsonDecodeError "response.json"))
    ∧ (∀ body kvs s, json_loads body = some (.obj kvs) →
        jsonLookup kvs "body" = some (.str s) → json_loads s = none →
        sendRequestNormalize 200 body al =
          .error (.jsonDecodeError "json.loads of body field"))
    ∧ (∀ src s d, NormError.jsonDecodeError src ≠ NormError.gatewayError s d) := by
  refine ⟨?_, ?_, ?_⟩
  · intro body hp
    unfold sendRequestNormalize
    rw [if_neg (by decide)]
    simp only [hp]
  · intro body kvs s hp hb hs
    unfold sendRequestNormalize
    rw [if_neg (by decide)]
    simp only [hp]
    have hu : unwrapEnvelope (.obj kvs) =
        .error (.jsonDecodeError "json.loads of body field") := by
      unfold unwrapEnvelope
      rw [show pyIn "body" (Json.obj kvs) = .ok (kvs.any fun p => p.1 == "body") from rfl,
        anyKey_true_of_lookup_some hb, ebind_ok]
      simp only [if_true]
      rw [show pySubscript (Json.obj kvs) "body" = .ok (Json.str s) by
            simp [pySubscript, hb],
        ebind_ok]
      simp only [hs]
    rw [hu, ebind_error]
  · intro src s d h
    exact NormError.noConfusion h

/-- C10 witness: an unparseable outer body and an envelope whose string
`body` field is unparseable; and, marking the boundary, the body `NaN` is
valid JSON to the decoder, so at status 200 it fails with the `TypeError`
from the `in` test on a float, not with a parse error. -/
theorem C10_witness :
    json_loads "not json" = none
    ∧ sendRequestNormalize 200 "not json" "m" = .error (.jsonDecodeError "response.json")
    ∧ sendRequestNormalize 200 "\x7b\"body\": \"not json\"\x7d" "m" =
        .error (.jsonDecodeError "json.loads of body field")
    ∧ json_loads "NaN" = some Json.nan
    ∧ sendRequestNormalize 200 "NaN" "m" =
        .error (.pyError "TypeError: argument of type is not iterable") := by
  refine ⟨rfl, ?_, ?_, rfl, rfl⟩
  · exact (C10_parse_failure "m").1 "not json" rfl
  · exact (C10_parse_failure "m").2.1 "\x7b\"body\": \"not json\"\x7d"
      [("body", Json.str "not json")] "not json" rfl rfl rfl

/-- With the usage subtree cut off, the three token reads default to 0. -/
theorem usage_defaults {ikvs : List (String × Json)} (h : usageCutOff ikvs) :
    ∃ u, pyGet (Json.obj ikvs) "usage" (.obj []) = .ok u
      ∧ pyGet u "totalTokens" (.num 0) = .ok (.num 0)
      ∧ pyGet u "inputTokens" (.num 0) = .ok (.num 0)
      ∧ pyGet u "outputTokens" (.num 0) = .ok (.num 0) := by
  unfold usageCutOff at h
  rcases hu : jsonLookup ikvs "usage" with _ | uv
  · exact ⟨.obj [], by simp [pyGet, hu], rfl, rfl, rfl⟩
  · rw [hu] at h
    cases uv with
    | obj uf =>
        simp only at h
        obtain ⟨h1, h2, h3⟩ := h
        exact ⟨.obj uf, by simp [pyGet, hu], by simp [pyGet, h1],
          by simp [pyGet, h2], by simp [pyGet, h3]⟩
    | null => exact h.elim
    | bool b => exact h.elim
    | num q => exact h.elim
    | nan => exact h.elim
    | inf ng => exact h.elim
    | str s => exact h.elim
    | arr xs => exact h.elim

/-- With the metrics subtree cut off, the latency read defaults to 0. -/
theorem metrics_defaults {ikvs : List (String × Json)} (h : metricsCutOff ikvs) :
    ∃ m, pyGet (Json.obj ikvs) "metrics" (.obj []) = .ok m
      ∧ pyGet m "latencyMs" (.num 0) = .ok (.num 0) := by
  unfold metricsCutOff at h
  rcases hm : jsonLookup ikvs "metrics" with _ | mv
  · exact ⟨.obj [], by simp [pyGet, hm], rfl⟩
  · rw [hm] at h
    cases mv with
    | obj mf =>
        simp only at h
        exact ⟨.obj mf, by simp [pyGet, hm], by simp [pyGet, h]⟩
    | null => exact h.elim
    | bool b => exact h.elim
    | num q => exact h.elim
    | nan => exact h.elim
    | inf ng => exact h.elim
    | str s => exact h.elim
    | arr xs => exact h.elim

/-- With the outer headers cut off, the request-id read defaults to
`"unknown"`. -/
theorem headers_default {kvs : List (String × Json)} (h : headersCutOff kvs) :
    ∃ hd, pyGet (Json.obj kvs) "headers" (.obj []) = .ok hd
      ∧ pyGet hd "X-Request-ID" (.str "unknown") = .ok (.str "unknown") := by
  unfold headersCutOff at h
  rcases hh : jsonLookup kvs "headers" with _ | hv
  · exact ⟨.obj [], by simp [pyGet, hh], rfl⟩
  · rw [hh] at h
    cases hv with
    | obj hf =>
        simp only at h
        exact ⟨.obj hf, by simp [pyGet, hh], by simp [pyGet, h]⟩
    | null => exact h.elim
    | bool b => exact h.elim
    | num q => exact h.elim
    | nan => exact h.elim
    | inf ng => exact h.elim
    | str s => exact h.elim
    | arr xs => exact h.elim

/-- C5 (confirmed): at status 200, whenever the fields extraction reads are
absent (at whatever depth the walk is cut off, the empty inner object
included), normalization succeeds with the stated defaults: empty text,
zero token and latency counts, and `"unknown"` request id and stop
reason. -/
theorem C5_tolerant_defaults (body al : String) (kvs ikvs : List (String × Json))
    (hEnv : json_loads body = some (.obj kvs))
    (hInner : innerOfEnvelope kvs = some (.obj ikvs))
    (htext : textCutOff ikvs)
    (husage : usageCutOff ikvs)
    (hmetrics : metricsCutOff ikvs)
    (hstop : jsonLookup ikvs "stopReason" = none)
    (hhdr : headersCutOff kvs) :
    sendRequestNormalize 200 body al =
      .ok { text := "", tokens := .num 0, input_tokens := .num 0,
            output_tokens := .num 0, latency_ms := .num 0,
            request_id := .str "unknown", model := al,
            stop_reason := .str "unknown", raw_response := .obj ikvs } := by
  obtain ⟨u, hu1, hu2, hu3, hu4⟩ := usage_defaults husage
  obtain ⟨m, hm1, hm2⟩ := metrics_defaults hmetrics
  obtain ⟨hd, hh1, hh2⟩ := headers_default hhdr
  unfold sendRequestNormalize
  rw [if_neg (by decide)]
  simp only [hEnv]
  rw [unwrapEnvelope_of_innerOf hInner, ebind_ok]
  rw [extractText_cutOff htext, ebind_ok]
  rw [hu1, ebind_ok, hm1, ebind_ok, hu2, ebind_ok, hu3, ebind_ok, hu4, ebind_ok,
    hm2, ebind_ok, hh1, ebind_ok, hh2, ebind_ok]
  rw [show pyGet (Json.obj ikvs) "stopReason" (.str "unknown") = .ok (.str "unknown") by
    simp [pyGet, hstop]]
  rfl

/-- C5 witness at the spec's empty-object inner response. -/
theorem C5_witness :
    json_loads "\x7b\x7d" = some (.obj [])
    ∧ sendRequestNormalize 200 "\x7b\x7d" "m" =
      .ok { text := "", tokens := .num 0, input_tokens := .num 0,
            output_tokens := .num 0, latency_ms := .num 0,
            request_id := .str "unknown", model := "m",
            stop_reason := .str "unknown", raw_response := .obj [] } :=
  ⟨rfl, C5_tolerant_defaults "\x7b\x7d" "m" [] [] rfl rfl trivial trivial trivial rfl trivial⟩

/-- C4 (confirmed): at status 200, for a body parsing to an object envelope,
any successful normalization uses as inner response the JSON parse of a
string-typed envelope `body` field and the envelope itself otherwise (the
result's `raw_response` is exactly what the spec's description predicts),
and its text is the in-order concatenation of the `text` fields of the
blocks under `inner.output.message.content`, blocks without one
contributing nothing. -/
theorem C4_envelope_and_text (body al : String) (kvs : List (String × Json))
    (r : BedrockResponse)
    (hEnv : json_loads body = some (.obj kvs))
    (hok : sendRequestNormalize 200 body al = .ok r) :
    innerOfEnvelope kvs = some r.raw_response
    ∧ ∀ blocks, contentPath r.raw_response = some (.arr blocks) →
        r.text = specTextConcat blocks := by
  obtain ⟨br, text, usage, metrics, tokens, itok, otok, lat, hdrs, rid, stop,
    hbr, htext, _, _, _, _, _, _, _, _, _, hr⟩ := normalize_ok_inv hEnv hok
  subst hr
  refine ⟨innerOf_of_unwrapEnvelope hbr, ?_⟩
  intro blocks hcp
  show text = specTextConcat blocks
  have hcp2 : contentPath br = some (.arr blocks) := hcp
  cases br with
  | obj f1 =>
      unfold contentPath at hcp2
      simp only at hcp2
      rcases ho : jsonLookup f1 "output" with _ | out
      · simp [ho] at hcp2
      · simp only [ho] at hcp2
        cases out with
        | obj f2 =>
            simp only at hcp2
            rcases hm : jsonLookup f2 "message" with _ | msg
            · simp [hm] at hcp2
            · simp only [hm] at hcp2
              cases msg with
              | obj f3 =>
                  simp only at hcp2
                  rw [extractText_content ho hm hcp2] at htext
                  have := extractTextLoop_ok htext
                  simpa using this
              | null => simp at hcp2
              | bool b => simp at hcp2
              | num q => simp at hcp2
              | nan => simp at hcp2
              | inf ng => simp at hcp2
              | str s => simp at hcp2
              | arr xs => simp at hcp2
        | null => simp at hcp2
        | bool b => simp at hcp2
        | num q => simp at hcp2
        | nan => simp at hcp2
        | inf ng => simp at hcp2
        | str s => simp at hcp2
        | arr xs => simp at hcp2
  | null => simp [contentPath] at hcp2
  | bool b => simp [contentPath] at hcp2
  | num q => simp [contentPath] at hcp2
  | nan => simp [contentPath] at hcp2
  | inf ng => simp [contentPath] at hcp2
  | str s => simp [contentPath] at hcp2
  | arr xs => simp [contentPath] at hcp2

/-- Sample envelope for the C4 witness: a string `body` field carrying the
serialized inner response. -/
def c4EnvelopeBody : String :=
  "\x7b\"body\": \"\x7b\\\"output\\\":\x7b\\\"message\\\":\x7b\\\"content\\\":[\x7b\\\"text\\\":\\\"hi\\\"\x7d]\x7d\x7d\x7d\"\x7d"

/-- The inner serialized response inside `c4EnvelopeBody`. -/
def c4InnerSrc : String :=
  "\x7b\"output\":\x7b\"message\":\x7b\"content\":[\x7b\"text\":\"hi\"\x7d]\x7d\x7d\x7d"

/-- The result the normalizer produces on `c4EnvelopeBody`. -/
def c4Result : BedrockResponse :=
  { text := "hi", tokens := .num 0, input_tokens := .num 0,
    output_tokens := .num 0, latency_ms := .num 0,
    request_id := .str "unknown", model := "m", stop_reason := .str "unknown",
    raw_response := .obj [("output", .obj [("message",
      .obj [("content", .arr [.obj [("text", .str "hi")]])])])] }

/-- C4 witness: the pass-through envelope re-parses its string `body` field
and the text is the concatenation over the content blocks. -/
theorem C4_witness :
    json_loads c4EnvelopeBody = some (.obj [("body", Json.str c4InnerSrc)])
    ∧ innerOfEnvelope [("body", Json.str c4InnerSrc)] = some c4Result.raw_response
    ∧ c4Result.text = specTextConcat [Json.obj [("text", Json.str "hi")]] := by
  have h := C4_envelope_and_text c4EnvelopeBody "m" [("body", Json.str c4InnerSrc)]
    c4Result rfl rfl
  exact ⟨rfl, h.1, h.2 [Json.obj [("text", Json.str "hi")]] rfl⟩

/-- C6 (confirmed): every successful normalization takes its request id from
the outer envelope's `headers["X-Request-ID"]`, defaulting to `"unknown"`
when the envelope has no headers object or no such key, regardless of the
inner response (which may have been re-parsed out of the envelope's string
`body` field). -/
theorem C6_request_id_outer (body al : String) (kvs : List (String × Json))
    (r : BedrockResponse)
    (hEnv : json_loads body = some (.obj kvs))
    (hok : sendRequestNormalize 200 body al = .ok r) :
    r.request_id = specRequestId kvs := by
  obtain ⟨br, text, usage, metrics, tokens, itok, otok, lat, hdrs, rid, stop,
    hbr, htext, hus, hmet, htok, hitok, hotok, hlat, hhdrs, hrid, hstop, hr⟩ :=
    normalize_ok_inv hEnv hok
  subst hr
  show rid = specRequestId kvs
  have hhd : ((jsonLookup kvs "headers").getD (.obj [])) = hdrs := Except.ok.inj hhdrs
  unfold specRequestId
  rcases hh : jsonLookup kvs "headers" with _ | hv
  · rw [hh] at hhd
    simp only [Option.getD_none] at hhd
    rw [← hhd] at hrid
    exact (Except.ok.inj hrid).symm
  · rw [hh] at hhd
    simp only [Option.getD_some] at hhd
    rw [← hhd] at hrid
    cases hv with
    | obj hf => exact (Except.ok.inj hrid).symm
    | null => simp [pyGet] at hrid
    | bool b => simp [pyGet] at hrid
    | num q => simp [pyGet] at hrid
    | nan => simp [pyGet] at hrid
    | inf ng => simp [pyGet] at hrid
    | str s => simp [pyGet] at hrid
    | arr xs => simp [pyGet] at hrid

/-- Envelope for the C6 witness: an outer `X-Request-ID` of `"abc"` while
the re-parsed inner response carries a different one. -/
def c6EnvelopeBody : String :=
  "\x7b\"headers\":\x7b\"X-Request-ID\":\"abc\"\x7d,\"body\":\"\x7b\\\"headers\\\":\x7b\\\"X-Request-ID\\\":\\\"inner\\\"\x7d\x7d\"\x7d"

/-- The result the normalizer produces on `c6EnvelopeBody`. -/
def c6Result : BedrockResponse :=
  { text := "", tokens := .num 0, input_tokens := .num 0,
    output_tokens := .num 0, latency_ms := .num 0,
    request_id := .str "abc", model := "m", stop_reason := .str "unknown",
    raw_response := .obj [("headers", .obj [("X-Request-ID", .str "inner")])] }

/-- C6 witness: the request id comes from the outer envelope's headers, not
from the inner response's differing one. -/
theorem C6_witness :
    c6Result.request_id =
      specRequestId [("headers", Json.obj [("X-Request-ID", Json.str "abc")]),
                     ("body", Json.str "\x7b\"headers\":\x7b\"X-Request-ID\":\"inner\"\x7d\x7d")]
    ∧ c6Result.request_id = Json.str "abc"
    ∧ jsonLookup [("headers", Json.obj [("X-Request-ID", Json.str "inner")])] "headers"
        = some (Json.obj [("X-Request-ID", Json.str "inner")])
    ∧ Json.str "abc" ≠ Json.str "inner" := by
  have h := C6_request_id_outer c6EnvelopeBody "m"
    [("headers", Json.obj [("X-Request-ID", Json.str "abc")]),
     ("body", Json.str "\x7b\"headers\":\x7b\"X-Request-ID\":\"inner\"\x7d\x7d")]
    c6Result rfl rfl
  exact ⟨h, rfl, rfl, fun hc => absurd (Json.str.inj hc) (by decide)⟩

end BedrockGateway
